import Mathlib

/-!
Shallow embedding of `opentracing-contrib/go-stdlib` (package `nethttp`):
a client-side span lifecycle tracker (`client.go`), a server middleware
(`server.go`) and a capability-preserving response-writer decorator
(`status_code.go` / `src/unnamed/part_001`).  Spans, tags and log events of
the external OpenTracing collaborator are modelled explicitly; effectful Go
code becomes state passing over a span backend plus an event journal, and Go
runtime faults (nil-interface method calls) become an `Except` error.
-/

namespace GoStdlib

/-- Value of an OpenTracing tag (`SetTag(key, value)` takes a scalar). -/
inductive TagVal where
  | str (s : String)
  | int (i : Int)
  | bool (b : Bool)
  deriving DecidableEq, Repr

/-! ## Capability-preserving response decorator (`src/unnamed/part_001`)

`metricsTracker` wraps an `http.ResponseWriter`; `wrappedResponseWriter`
probes the underlying writer for the five optional interfaces
(`http.Hijacker`, `http.CloseNotifier`, `http.Pusher`, `http.Flusher`,
`io.ReaderFrom`) and returns an anonymous struct embedding exactly the
interfaces the underlying writer satisfies, plus `http.ResponseWriter` and
`io.StringWriter` (both backed by the tracker itself). -/

/-- The mutable counters of `metricsTracker`: the recorded status code and
the cumulative number of bytes written.  Go's `int` is modelled as `Int`. -/
structure MetricsState where
  status : Int
  size : Int
  deriving DecidableEq, Repr

/-- `metricsTracker.WriteHeader(status)`: records the status and forwards. -/
def MetricsState.writeHeader (w : MetricsState) (status : Int) : MetricsState :=
  { w with status := status }

/-- `metricsTracker.Write(b)`: the underlying writer reports `n` bytes
written (and an error, which is passed through and does not affect the
counters); the tracker adds `n` to its cumulative size. -/
def MetricsState.write (w : MetricsState) (n : Int) : MetricsState :=
  { w with size := w.size + n }

/-- `metricsTracker.WriteString(s)`: `io.WriteString(w.ResponseWriter, s)`
reports `n` bytes written; the tracker adds `n` to its cumulative size. -/
def MetricsState.writeString (w : MetricsState) (n : Int) : MetricsState :=
  { w with size := w.size + n }

/-- One call the handler performs on the wrapped response writer, with the
byte count the underlying writer reports for body writes. -/
inductive WriterOp where
  | writeHeader (status : Int)
  | write (n : Int)
  | writeString (n : Int)
  deriving DecidableEq, Repr

/-- Whether the writer call is a `WriteHeader` call. -/
def WriterOp.isWriteHeader : WriterOp → Bool
  | .writeHeader _ => true
  | _ => false

/-- Effect of one writer call on the tracker counters. -/
def metricsApply (w : MetricsState) : WriterOp → MetricsState
  | .writeHeader s => w.writeHeader s
  | .write n => w.write n
  | .writeString n => w.writeString n

/-- The interface set of the value `wrappedResponseWriter` returns:
which interfaces the anonymous struct embeds (hence which type assertions
on the facade succeed). -/
structure FacadeShape where
  responseWriter : Bool
  stringWriter : Bool
  hijacker : Bool
  closeNotifier : Bool
  pusher : Bool
  flusher : Bool
  readerFrom : Bool
  deriving DecidableEq, Repr

/-- `(*metricsTracker).wrappedResponseWriter`: the 32-case switch over the
probe results `i0 = Hijacker`, `i1 = CloseNotifier`, `i2 = Pusher`,
`i3 = Flusher`, `i4 = ReaderFrom`, transcribed case by case.  Every branch
returns a struct embedding `http.ResponseWriter` and `io.StringWriter`
(both the tracker) plus the probed interfaces of that branch. -/
def wrappedResponseWriter (i0 i1 i2 i3 i4 : Bool) : FacadeShape :=
  if !i0 && !i1 && !i2 && !i3 && !i4 then
    ⟨true, true, false, false, false, false, false⟩
  else if !i0 && !i1 && !i2 && !i3 && i4 then
    ⟨true, true, false, false, false, false, true⟩
  else if !i0 && !i1 && !i2 && i3 && !i4 then
    ⟨true, true, false, false, false, true, false⟩
  else if !i0 && !i1 && !i2 && i3 && i4 then
    ⟨true, true, false, false, false, true, true⟩
  else if !i0 && !i1 && i2 && !i3 && !i4 then
    ⟨true, true, false, false, true, false, false⟩
  else if !i0 && !i1 && i2 && !i3 && i4 then
    ⟨true, true, false, false, true, false, true⟩
  else if !i0 && !i1 && i2 && i3 && !i4 then
    ⟨true, true, false, false, true, true, false⟩
  else if !i0 && !i1 && i2 && i3 && i4 then
    ⟨true, true, false, false, true, true, true⟩
  else if !i0 && i1 && !i2 && !i3 && !i4 then
    ⟨true, true, false, true, false, false, false⟩
  else if !i0 && i1 && !i2 && !i3 && i4 then
    ⟨true, true, false, true, false, false, true⟩
  else if !i0 && i1 && !i2 && i3 && !i4 then
    ⟨true, true, false, true, false, true, false⟩
  else if !i0 && i1 && !i2 && i3 && i4 then
    ⟨true, true, false, true, false, true, true⟩
  else if !i0 && i1 && i2 && !i3 && !i4 then
    ⟨true, true, false, true, true, false, false⟩
  else if !i0 && i1 && i2 && !i3 && i4 then
    ⟨true, true, false, true, true, false, true⟩
  else if !i0 && i1 && i2 && i3 && !i4 then
    ⟨true, true, false, true, true, true, false⟩
  else if !i0 && i1 && i2 && i3 && i4 then
    ⟨true, true, false, true, true, true, true⟩
  else if i0 && !i1 && !i2 && !i3 && !i4 then
    ⟨true, true, true, false, false, false, false⟩
  else if i0 && !i1 && !i2 && !i3 && i4 then
    ⟨true, true, true, false, false, false, true⟩
  else if i0 && !i1 && !i2 && i3 && !i4 then
    ⟨true, true, true, false, false, true, false⟩
  else if i0 && !i1 && !i2 && i3 && i4 then
    ⟨true, true, true, false, false, true, true⟩
  else if i0 && !i1 && i2 && !i3 && !i4 then
    ⟨true, true, true, false, true, false, false⟩
  else if i0 && !i1 && i2 && !i3 && i4 then
    ⟨true, true, true, false, true, false, true⟩
  else if i0 && !i1 && i2 && i3 && !i4 then
    ⟨true, true, true, false, true, true, false⟩
  else if i0 && !i1 && i2 && i3 && i4 then
    ⟨true, true, true, false, true, true, true⟩
  else if i0 && i1 && !i2 && !i3 && !i4 then
    ⟨true, true, true, true, false, false, false⟩
  else if i0 && i1 && !i2 && !i3 && i4 then
    ⟨true, true, true, true, false, false, true⟩
  else if i0 && i1 && !i2 && i3 && !i4 then
    ⟨true, true, true, true, false, true, false⟩
  else if i0 && i1 && !i2 && i3 && i4 then
    ⟨true, true, true, true, false, true, true⟩
  else if i0 && i1 && i2 && !i3 && !i4 then
    ⟨true, true, true, true, true, false, false⟩
  else if i0 && i1 && i2 && !i3 && i4 then
    ⟨true, true, true, true, true, false, true⟩
  else if i0 && i1 && i2 && i3 && !i4 then
    ⟨true, true, true, true, true, true, false⟩
  else if i0 && i1 && i2 && i3 && i4 then
    ⟨true, true, true, true, true, true, true⟩
  else
    ⟨true, true, false, false, false, false, false⟩

/-! ## Server middleware (`src/nethttp/server.go`)

`MiddlewareFunc` builds a handler that filters, extracts an inbound span
context, starts a span, tags it, wraps the writer in a `metricsTracker`,
runs the handler, and in a deferred block recovers from a panic, tags
status / size / error, finishes the span and re-raises the panic.  We model
one invocation of the produced handler as the list of observable events it
performs, in order. -/

/-- Key of the `http.response_size` tag (`var responseSizeKey`). -/
def responseSizeKey : String := "http.response_size"

/-- Default component name of the package (`defaultComponentName`),
used when the caller supplies none. -/
def defaultComponentName : String := "net/http"

/-- Go's `uint16(i)` conversion on an `int`: truncation to 16 bits,
i.e. the remainder modulo `2^16` in two's complement. -/
def uint16ofInt (i : Int) : Int := i.emod 65536

/-- The inbound `*http.Request`, reduced to the fields the middleware
reads: method and URL (already rendered to the string `urlTagFunc` maps). -/
structure Request where
  method : String
  url : String
  deriving DecidableEq, Repr

/-- The `mwOptions` configuration snapshot (fields the traced path uses). -/
structure MwOptions where
  opNameFunc : Request → String
  spanFilter : Request → Bool
  urlTagFunc : String → String
  componentName : String

/-- `mwOptions` defaults as set at the top of `MiddlewareFunc`. -/
def defaultMwOptions : MwOptions where
  opNameFunc := fun r => "HTTP " ++ r.method
  spanFilter := fun _ => true
  urlTagFunc := fun u => u
  componentName := ""

/-- Middleware options whose span filter rejects every request. -/
def filterOffOptions : MwOptions :=
  { defaultMwOptions with spanFilter := fun _ => false }

/-- Behaviour of the wrapped `http.HandlerFunc` during one request: the
calls it makes on the response writer it was given, and the value it
panics with (`none` = returns normally).  A recovered Go panic value is
never the nil interface (`panic(nil)` is delivered as a non-nil
`*runtime.PanicNilError`), so `recover() != nil` holds exactly when the
handler panicked. -/
structure HandlerBehavior where
  ops : List WriterOp
  panicVal : Option Nat
  deriving DecidableEq, Repr

/-- One observable event of a middleware invocation, in program order. -/
inductive MwEvent where
  /-- `tr.Extract(opentracing.HTTPHeaders, ...)` on the inbound headers. -/
  | extractCtx
  /-- `tr.StartSpan(opts.opNameFunc(r), ...)`. -/
  | startSpan (opName : String)
  /-- `SetTag` on the server span. -/
  | setTag (key : String) (v : TagVal)
  /-- `opts.spanObserver(sp, r)`. -/
  | observerCalled
  /-- The wrapped handler is invoked; `wrapped` records whether it received
  the metrics-tracking facade (`true`) or the original writer (`false`). -/
  | handlerCalled (wrapped : Bool)
  /-- `sp.Finish()`. -/
  | finishSpan
  /-- A panic propagates out of the middleware handler with this value. -/
  | panicOut (v : Nat)
  deriving DecidableEq, Repr

/-- Whether an event belongs to the tracing machinery (context extraction,
span start, tagging, observer callback, span finish). -/
def MwEvent.isTracing : MwEvent → Bool
  | .extractCtx => true
  | .startSpan _ => true
  | .setTag _ _ => true
  | .observerCalled => true
  | .finishSpan => true
  | .handlerCalled _ => false
  | .panicOut _ => false

/-- Events of the deferred cleanup block (`server.go` lines 149-172), given
the final tracker counters and the recovered panic value.  A trailing
`panicOut` models the `panic(panicErr)` re-raise escaping the handler. -/
def deferBlock (mt0 : MetricsState) (panicErr : Option Nat) : List MwEvent :=
  let didPanic := panicErr.isSome
  let mt := if mt0.status == 0 && !didPanic then { mt0 with status := 200 } else mt0
  (if mt.status > 0 then
      [MwEvent.setTag "http.status_code" (TagVal.int (uint16ofInt mt.status))]
    else []) ++
  (if mt.size > 0 then [MwEvent.setTag responseSizeKey (TagVal.int mt.size)] else []) ++
  (if mt.status ≥ 500 || didPanic then [MwEvent.setTag "error" (TagVal.bool true)] else []) ++
  [MwEvent.finishSpan] ++
  (match panicErr with
    | some v => [MwEvent.panicOut v]
    | none => [])

/-- One invocation of the handler returned by `MiddlewareFunc`
(`server.go` lines 133-175), as its event list.  On the filtered path the
handler runs with the original writer and any panic it raises escapes
unobserved; on the traced path the handler runs with the wrapped writer
(its writer calls folded over a fresh `metricsTracker`) and the deferred
block runs afterwards. -/
def middlewareFn (opts : MwOptions) (hb : HandlerBehavior) (r : Request) : List MwEvent :=
  let componentName :=
    if opts.componentName == "" then defaultComponentName else opts.componentName
  if !opts.spanFilter r then
    MwEvent.handlerCalled false ::
      (match hb.panicVal with
        | some v => [MwEvent.panicOut v]
        | none => [])
  else
    let mt := hb.ops.foldl metricsApply ⟨0, 0⟩
    [MwEvent.extractCtx,
     MwEvent.startSpan (opts.opNameFunc r),
     MwEvent.setTag "http.method" (TagVal.str r.method),
     MwEvent.setTag "http.url" (TagVal.str (opts.urlTagFunc r.url)),
     MwEvent.setTag "component" (TagVal.str componentName),
     MwEvent.observerCalled,
     MwEvent.handlerCalled true] ++
    deferBlock mt hb.panicVal

/-! ## Client span lifecycle tracker (`src/nethttp/client.go`)

Spans started through the external tracer are modelled as records in a
`Backend` holding every span started so far plus an ordered journal of the
observable OpenTracing calls.  A Go runtime fault — calling a method on a
nil interface value — is modelled as `Except.error GoFault.nilInterfaceCall`. -/

/-- A Go runtime fault aborting the function (a panic raised by the
runtime itself, not by user code). -/
inductive GoFault where
  /-- Method call on a nil interface value / field access through a nil
  pointer: `runtime error: invalid memory address or nil pointer
  dereference`. -/
  | nilInterfaceCall
  deriving DecidableEq, Repr

/-- One span held by the tracing backend.  `parent` is the span referred
to by the `opentracing.ChildOf` option at `StartSpan` time (`none` when
the `ChildOf` context was the nil interface). -/
structure SpanRec where
  id : Nat
  opName : String
  parent : Option Nat
  tags : List (String × TagVal)
  logs : List String
  finished : Bool
  deriving DecidableEq, Repr

/-- An observable OpenTracing call, as journalled by the backend. -/
inductive JEvent where
  | startSpan (id : Nat) (opName : String) (parent : Option Nat)
  | setTag (id : Nat) (key : String) (v : TagVal)
  | logEvent (id : Nat) (name : String)
  | logEventPayload (id : Nat) (name payload : String)
  | finish (id : Nat)
  /-- `Tracer().Inject(...)` of a span's context into the headers. -/
  | inject (id : Nat)
  /-- `io.ReadCloser.Close()` on the underlying response body. -/
  | bodyClose
  deriving DecidableEq, Repr

/-- The tracing backend: the spans started so far (ids are assigned from
`nextId`, increasing) together with the journal of calls made on it. -/
structure Backend where
  nextId : Nat
  spans : List SpanRec
  journal : List JEvent
  deriving Repr

/-- Well-formedness: every stored span id is below `nextId` (ids are
handed out from `nextId`, so this is an invariant of every reachable
backend). -/
def Backend.wfB (b : Backend) : Bool :=
  b.spans.all fun r => r.id < b.nextId

/-- Find the span with the given id. -/
def findSpan : List SpanRec → Nat → Option SpanRec
  | [], _ => none
  | r :: rs, i => if r.id == i then some r else findSpan rs i

/-- The `ChildOf` parent recorded for span `s` (`none` when `s` is unknown
or is a root span). -/
def Backend.parentOf (b : Backend) (s : Nat) : Option Nat :=
  match findSpan b.spans s with
  | some r => r.parent
  | none => none

/-- `tracer.StartSpan(name, ChildOf(ctx))`: allocate a fresh span. -/
def Backend.startSpan (b : Backend) (name : String) (parent : Option Nat) :
    Backend × Nat :=
  let i := b.nextId
  ({ nextId := i + 1,
     spans := b.spans ++ [⟨i, name, parent, [], [], false⟩],
     journal := b.journal ++ [JEvent.startSpan i name parent] }, i)

/-- Apply `f` to the span with id `i` (identity on the others). -/
def updateSpan (i : Nat) (f : SpanRec → SpanRec) : List SpanRec → List SpanRec
  | [] => []
  | r :: rs => (if r.id == i then f r else r) :: updateSpan i f rs

/-- `sp.SetTag(key, v)`. -/
def Backend.setTag (b : Backend) (i : Nat) (key : String) (v : TagVal) : Backend :=
  { b with
    spans := updateSpan i (fun r => { r with tags := r.tags ++ [(key, v)] }) b.spans,
    journal := b.journal ++ [JEvent.setTag i key v] }

/-- `sp.LogEvent(name)`. -/
def Backend.logEvent (b : Backend) (i : Nat) (name : String) : Backend :=
  { b with
    spans := updateSpan i (fun r => { r with logs := r.logs ++ [name] }) b.spans,
    journal := b.journal ++ [JEvent.logEvent i name] }

/-- `sp.Finish()`. -/
def Backend.finishSpan (b : Backend) (i : Nat) : Backend :=
  { b with
    spans := updateSpan i (fun r => { r with finished := true }) b.spans,
    journal := b.journal ++ [JEvent.finish i] }

/-- The `Tracer` struct of `client.go`: `root`, `parent` and `sp` are
`opentracing.Span` interface fields (`none` = nil interface). -/
structure Tracer where
  root : Option Nat
  parent : Option Nat
  sp : Option Nat
  deriving DecidableEq, Repr

/-- `newTrace(parent)` (`client.go` lines 120-128).  The nil check guards
only the `ctx` assignment; the very next line calls `parent.Tracer()`
unconditionally, which on a nil interface is a runtime fault.  For a
non-nil parent it starts a root span "HTTP" childed off the parent's
context, tags it `span.kind=client` (`ext.SpanKindRPCClient.Set`), and
returns `&Tracer{root, root, nil}`. -/
def newTrace (b : Backend) (parent : Option Nat) : Except GoFault (Backend × Tracer) :=
  let ctx : Option Nat :=
    match parent with
    | some p => some p
    | none => none
  match parent with
  | none => Except.error GoFault.nilInterfaceCall
  | some _ =>
    let (b1, rootId) := b.startSpan "HTTP" ctx
    let b2 := b1.setTag rootId "span.kind" (TagVal.str "client")
    Except.ok (b2, ⟨some rootId, some rootId, none⟩)

/-- `(*Tracer).start(req)` (`client.go` lines 97-108): start a span
`"HTTP "+req.Method` childed off `h.parent`'s context, reassign both
`h.sp` and `h.parent` to it, and tag it RPC-client + component.  Calling
`h.parent.Tracer()` with a nil `parent` field is a runtime fault. -/
def Tracer.start (h : Tracer) (b : Backend) (method : String) :
    Except GoFault (Backend × Tracer × Nat) :=
  match h.parent with
  | none => Except.error GoFault.nilInterfaceCall
  | some p =>
    let (b1, spId) := b.startSpan ("HTTP " ++ method) (some p)
    let b2 := b1.setTag spId "span.kind" (TagVal.str "client")
    let b3 := b2.setTag spId "component" (TagVal.str "net/http")
    Except.ok (b3, { h with sp := some spId, parent := some spId }, spId)

/-- `(*Tracer).Finish()`: finishes only `root`. -/
def Tracer.finish (h : Tracer) (b : Backend) : Except GoFault Backend :=
  match h.root with
  | none => Except.error GoFault.nilInterfaceCall
  | some r => Except.ok (b.finishSpan r)

/-- `(*Tracer).getConn(hostPort)` (`client.go` lines 147-150):
`ext.HTTPUrl.Set(h.sp, hostPort)` then `h.sp.LogEvent("Get conn")`.
`ext.HTTPUrl` is the `http.url` tag. -/
def Tracer.getConn (h : Tracer) (b : Backend) (hostPort : String) :
    Except GoFault Backend :=
  match h.sp with
  | none => Except.error GoFault.nilInterfaceCall
  | some s => Except.ok ((b.setTag s "http.url" (TagVal.str hostPort)).logEvent s "Get conn")

/-- The state of a response body (`io.ReadCloser`): whether it has been
closed and the error its `Close` reports. -/
structure BodyState where
  closed : Bool
  closeErr : Option String
  deriving DecidableEq, Repr

/-- `io.ReadCloser.Close()` on the underlying body: journalled as a
`bodyClose` event; reports the body's close error. -/
def bodyCloseOp (b : Backend) (body : BodyState) :
    Backend × BodyState × Option String :=
  ({ b with journal := b.journal ++ [JEvent.bodyClose] },
   { body with closed := true }, body.closeErr)

/-- `closeTracker.Close()` (`client.go` lines 59-64): close the underlying
body, log "Closed body" on the hop span `sp`, finish `sp`, and return the
underlying close error. -/
def closeTrackerClose (b : Backend) (sp : Nat) (body : BodyState) :
    Backend × BodyState × Option String :=
  let (b1, body1, err) := bodyCloseOp b body
  let b2 := b1.logEvent sp "Closed body"
  let b3 := b2.finishSpan sp
  (b3, body1, err)

/-- What the underlying `http.RoundTripper` returns.  Per the
`http.RoundTripper` contract a transport-level error (connection / DNS /
TLS failure) comes with a nil `*http.Response`. -/
inductive RTResult where
  | ok (statusCode : Int) (body : BodyState)
  | transportErr (e : String)
  deriving DecidableEq, Repr

/-- Outcome of `Transport.RoundTrip` when it returns (rather than
faulting): the response/error pair handed to the caller and whether the
response body was wrapped in a `closeTracker` finishing the hop span. -/
structure RTReturn where
  result : RTResult
  bodyWrapped : Bool
  deriving DecidableEq, Repr

/-- `(*Transport).RoundTrip(req)` (`client.go` lines 67-89).  Without a
tracker in the request context, plain passthrough.  Otherwise:
`tracer.start(req)`, tag method and URL, inject the span context, call the
underlying round tripper, then evaluate
`ext.HTTPStatusCode.Set(tracer.sp, uint16(resp.StatusCode))` — a runtime
fault when the transport errored, because `resp` is nil there; on success
(`err == nil`) the `err != nil && req.Method == "HEAD"` branch is not
taken and the body is wrapped in a `closeTracker`. -/
def roundTrip (b : Backend) (tracer : Option Tracer) (req : Request)
    (transport : RTResult) : Except GoFault (Backend × Option Tracer × RTReturn) :=
  match tracer with
  | none => Except.ok (b, none, ⟨transport, false⟩)
  | some t =>
    match t.start b req.method with
    | Except.error f => Except.error f
    | Except.ok (b1, t1, sp) =>
      let b2 := b1.setTag sp "http.method" (TagVal.str req.method)
      let b3 := b2.setTag sp "http.url" (TagVal.str req.url)
      let b4 := { b3 with journal := b3.journal ++ [JEvent.inject sp] }
      match transport with
      | RTResult.transportErr _ => Except.error GoFault.nilInterfaceCall
      | RTResult.ok status body =>
        let b5 := b4.setTag sp "http.status_code" (TagVal.int (uint16ofInt status))
        Except.ok (b5, some t1, ⟨RTResult.ok status body, true⟩)

/-- `(*Tracer).start` invoked once per physical connection attempt: the
initial send and one call per redirect hop, with the method of each hop. -/
def startMany (b : Backend) (t : Tracer) : List String → Except GoFault (Backend × Tracer)
  | [] => Except.ok (b, t)
  | m :: ms =>
    match t.start b m with
    | Except.error f => Except.error f
    | Except.ok (b1, t1, _) => startMany b1 t1 ms

/-- Well-formedness of the backend, as a proposition: every stored span id
is below `nextId`. -/
def Backend.WF (b : Backend) : Prop :=
  ∀ r ∈ b.spans, r.id < b.nextId

/-- The `ChildOf` parent chain recorded in the backend, followed from `s`,
reaches `root`. -/
inductive ChainToRoot (b : Backend) (root : Nat) : Nat → Prop where
  | refl : ChainToRoot b root root
  | step {s p : Nat} : b.parentOf s = some p → ChainToRoot b root p →
      ChainToRoot b root s

/-! ## Theorems about the decorator and the client -/

/-- Claim C3: for every response writer and each of the optional
capabilities (Hijacker, CloseNotifier, Pusher, Flusher, ReaderFrom), the
facade returned by `wrappedResponseWriter` satisfies that capability if
and only if the underlying writer satisfies it — across all 32
combinations. -/
theorem wrappedResponseWriter_capability_iff (i0 i1 i2 i3 i4 : Bool) :
    (wrappedResponseWriter i0 i1 i2 i3 i4).hijacker = i0 ∧
    (wrappedResponseWriter i0 i1 i2 i3 i4).closeNotifier = i1 ∧
    (wrappedResponseWriter i0 i1 i2 i3 i4).pusher = i2 ∧
    (wrappedResponseWriter i0 i1 i2 i3 i4).flusher = i3 ∧
    (wrappedResponseWriter i0 i1 i2 i3 i4).readerFrom = i4 := by
  cases i0 <;> cases i1 <;> cases i2 <;> cases i3 <;> cases i4 <;> decide

/-- Claim C10: for every underlying writer, across all 32 capability
combinations, the facade embeds `io.StringWriter`, and the tracker's
`Write` and `WriteString` both add the byte count reported by the
underlying writer to the cumulative size counter. -/
theorem facade_stringWriter_and_size_counting (i0 i1 i2 i3 i4 : Bool)
    (w : MetricsState) (n : Int) :
    (wrappedResponseWriter i0 i1 i2 i3 i4).stringWriter = true ∧
    (w.write n).size = w.size + n ∧
    (w.writeString n).size = w.size + n := by
  refine ⟨?_, rfl, rfl⟩
  cases i0 <;> cases i1 <;> cases i2 <;> cases i3 <;> cases i4 <;> decide

/-- Claim C4: `closeTracker.Close` closes the underlying body, logs a
"Closed body" event on the hop span, finishes the hop span — in that
order, as witnessed by the journal — and returns the underlying body's
close error unchanged. -/
theorem closeTracker_close_order_and_error (b : Backend) (sp : Nat) (body : BodyState) :
    (closeTrackerClose b sp body).2.2 = body.closeErr ∧
    (closeTrackerClose b sp body).2.1.closed = true ∧
    (closeTrackerClose b sp body).1.journal =
      b.journal ++ [JEvent.bodyClose, JEvent.logEvent sp "Closed body", JEvent.finish sp] := by
  refine ⟨rfl, rfl, ?_⟩
  simp [closeTrackerClose, bodyCloseOp, Backend.logEvent, Backend.finishSpan]

/-- Claim C5 (what the code actually does at the failing input):
`newTrace` with a nil `parentSpan` does not degrade to a no-op — the
unconditional `parent.Tracer()` call is a nil-interface method call, a
runtime fault.  With a non-nil parent it starts a root span "HTTP"
childed off the parent's context and tags it as an RPC client. -/
theorem newTrace_nil_parent_faults (b : Backend) (p : Nat) :
    newTrace b none = Except.error GoFault.nilInterfaceCall ∧
    ∃ b', newTrace b (some p) =
        Except.ok (b', Tracer.mk (some b.nextId) (some b.nextId) none) ∧
      JEvent.startSpan b.nextId "HTTP" (some p) ∈ b'.journal ∧
      JEvent.setTag b.nextId "span.kind" (TagVal.str "client") ∈ b'.journal := by
  refine ⟨rfl, ?_⟩
  refine ⟨_, rfl, ?_, ?_⟩ <;>
    simp [Backend.startSpan, Backend.setTag]

/-- Claim C6 (what the code actually does at the failing input): on a
transport-level error the underlying round tripper returns a nil
response, and `Transport.RoundTrip` evaluates `resp.StatusCode` before
checking the error — a runtime fault for every method, HEAD included; the
transport error is never returned to the caller. -/
theorem roundTrip_transport_error_faults (b : Backend) (root sp : Option Nat)
    (p : Nat) (req : Request) (e : String) :
    roundTrip b (some (Tracer.mk root (some p) sp)) req (RTResult.transportErr e) =
      Except.error GoFault.nilInterfaceCall := by
  simp [roundTrip, Tracer.start]

/-- Claim C7 (what the code actually does): the `getConn` connection-event
callback tags `http.url` — not `peer.address` — with the resolved
host:port on the hop span; the journal delta is exactly that tag write
followed by the "Get conn" log event, so no `peer.address` tag is ever
produced. -/
theorem getConn_tags_http_url_only (b : Backend) (root parent : Option Nat)
    (s : Nat) (hostPort : String) :
    ∃ b', Tracer.getConn ⟨root, parent, some s⟩ b hostPort = Except.ok b' ∧
      b'.journal = b.journal ++
        [JEvent.setTag s "http.url" (TagVal.str hostPort),
         JEvent.logEvent s "Get conn"] := by
  refine ⟨_, rfl, ?_⟩
  simp [Backend.setTag, Backend.logEvent]

/-! ## Theorems about the server middleware -/

/-- The deferred cleanup after a panic: error tag set, exactly one span
finish, and the trace ends by re-raising the recovered value. -/
theorem deferBlock_panic_props (mt0 : MetricsState) (v : Nat) :
    MwEvent.setTag "error" (TagVal.bool true) ∈ deferBlock mt0 (some v) ∧
    (deferBlock mt0 (some v)).count MwEvent.finishSpan = 1 ∧
    (deferBlock mt0 (some v)).getLast? = some (MwEvent.panicOut v) := by
  unfold deferBlock
  simp only [Option.isSome_some, Bool.not_true, Bool.and_false, Bool.false_eq_true,
    if_false, Bool.or_true, if_true, ite_false, ite_true]
  split_ifs <;>
    simp [List.count_append, List.count_cons, List.getLast?]

/-- Writer calls other than `WriteHeader` leave the recorded status code
untouched. -/
theorem foldl_metricsApply_status (ops : List WriterOp) (w : MetricsState)
    (h : ∀ op ∈ ops, op.isWriteHeader = false) :
    (ops.foldl metricsApply w).status = w.status := by
  induction ops generalizing w with
  | nil => rfl
  | cons op ops ih =>
    cases op with
    | writeHeader s =>
      have := h _ (List.mem_cons_self _ _)
      simp [WriterOp.isWriteHeader] at this
    | write n =>
      simpa using ih (w.write n) fun op hop => h op (List.mem_cons_of_mem _ hop)
    | writeString n =>
      simpa using ih (w.writeString n) fun op hop => h op (List.mem_cons_of_mem _ hop)

/-- The deferred cleanup of a normally returning handler that never wrote
a status tags `http.status_code` 200. -/
theorem deferBlock_status_200 (mt : MetricsState) (h : mt.status = 0) :
    MwEvent.setTag "http.status_code" (TagVal.int 200) ∈ deferBlock mt none := by
  have h200 : uint16ofInt 200 = 200 := by decide
  unfold deferBlock
  simp [h, h200]

/-- Claim C1: on a traced request whose handler panics, the middleware's
deferred cleanup tags the span `error=true`, finishes the span exactly
once, and the same panic value re-emerges to the caller as the last event
of the invocation — the panic is never swallowed. -/
theorem middleware_panic_observed (opts : MwOptions) (hb : HandlerBehavior)
    (r : Request) (v : Nat) (hf : opts.spanFilter r = true)
    (hp : hb.panicVal = some v) :
    MwEvent.setTag "error" (TagVal.bool true) ∈ middlewareFn opts hb r ∧
    (middlewareFn opts hb r).count MwEvent.finishSpan = 1 ∧
    (middlewareFn opts hb r).getLast? = some (MwEvent.panicOut v) := by
  obtain ⟨hmem, hcount, hlast⟩ :=
    deferBlock_panic_props (hb.ops.foldl metricsApply ⟨0, 0⟩) v
  have hne : deferBlock (hb.ops.foldl metricsApply ⟨0, 0⟩) (some v) ≠ [] := by
    intro hnil
    rw [hnil] at hcount
    simp at hcount
  simp only [middlewareFn, hf, hp, Bool.not_true, Bool.false_eq_true, if_false, ite_false,
    reduceIte]
  refine ⟨by simp [hmem], ?_, ?_⟩
  · simp [List.count_append, List.count_cons, hcount]
  · rw [List.getLast?_append_of_ne_nil _ hne, hlast]

/-- Claim C2: on a traced request whose handler returns normally without
ever calling `WriteHeader`, the middleware tags the span with
`http.status_code` 200. -/
theorem middleware_default_status_200 (opts : MwOptions) (hb : HandlerBehavior)
    (r : Request) (hf : opts.spanFilter r = true) (hn : hb.panicVal = none)
    (hw : ∀ op ∈ hb.ops, op.isWriteHeader = false) :
    MwEvent.setTag "http.status_code" (TagVal.int 200) ∈ middlewareFn opts hb r := by
  have hst : (hb.ops.foldl metricsApply ⟨0, 0⟩).status = 0 :=
    foldl_metricsApply_status hb.ops ⟨0, 0⟩ hw
  have hmem := deferBlock_status_200 (hb.ops.foldl metricsApply ⟨0, 0⟩) hst
  simp only [middlewareFn, hf, hn, Bool.not_true, Bool.false_eq_true, if_false, ite_false,
    reduceIte]
  simp [hmem]

/-- Claim C8: when the span filter rejects the request, the middleware
invokes the handler directly with the original response writer (a panic,
if any, escapes unobserved) and performs no tracing at all: no context
extraction, no span start, no tagging, no observer call, no finish. -/
theorem middleware_filtered_passthrough (opts : MwOptions) (hb : HandlerBehavior)
    (r : Request) (hf : opts.spanFilter r = false) :
    middlewareFn opts hb r =
      MwEvent.handlerCalled false ::
        (match hb.panicVal with
          | some v => [MwEvent.panicOut v]
          | none => []) ∧
    ∀ e ∈ middlewareFn opts hb r, e.isTracing = false := by
  have hfn : middlewareFn opts hb r =
      MwEvent.handlerCalled false ::
        (match hb.panicVal with
          | some v => [MwEvent.panicOut v]
          | none => []) := by
    simp [middlewareFn, hf]
  refine ⟨hfn, ?_⟩
  rw [hfn]
  cases hb.panicVal <;> simp [MwEvent.isTracing]

/-- Witness for claim C1 at a concrete input: default options, a handler
that panics with value 7 after no writer calls, a GET request. -/
theorem middleware_panic_observed_witness :
    defaultMwOptions.spanFilter ⟨"GET", "/a"⟩ = true ∧
    (⟨[], some 7⟩ : HandlerBehavior).panicVal = some 7 ∧
    (MwEvent.setTag "error" (TagVal.bool true) ∈
        middlewareFn defaultMwOptions ⟨[], some 7⟩ ⟨"GET", "/a"⟩ ∧
      (middlewareFn defaultMwOptions ⟨[], some 7⟩ ⟨"GET", "/a"⟩).count MwEvent.finishSpan = 1 ∧
      (middlewareFn defaultMwOptions ⟨[], some 7⟩ ⟨"GET", "/a"⟩).getLast? =
        some (MwEvent.panicOut 7)) :=
  ⟨rfl, rfl, middleware_panic_observed defaultMwOptions ⟨[], some 7⟩ ⟨"GET", "/a"⟩ 7 rfl rfl⟩

/-- Witness for claim C2 at a concrete input: default options, a handler
writing a 5-byte body without ever calling `WriteHeader`. -/
theorem middleware_default_status_200_witness :
    defaultMwOptions.spanFilter ⟨"GET", "/a"⟩ = true ∧
    (⟨[WriterOp.write 5], none⟩ : HandlerBehavior).panicVal = none ∧
    (∀ op ∈ (⟨[WriterOp.write 5], none⟩ : HandlerBehavior).ops, op.isWriteHeader = false) ∧
    MwEvent.setTag "http.status_code" (TagVal.int 200) ∈
      middlewareFn defaultMwOptions ⟨[WriterOp.write 5], none⟩ ⟨"GET", "/a"⟩ :=
  ⟨rfl, rfl, by decide,
    middleware_default_status_200 defaultMwOptions ⟨[WriterOp.write 5], none⟩ ⟨"GET", "/a"⟩
      rfl rfl (by decide)⟩

/-- Witness for claim C8 at a concrete input: options whose filter rejects
everything, a normally returning handler. -/
theorem middleware_filtered_passthrough_witness :
    filterOffOptions.spanFilter ⟨"GET", "/a"⟩ = false ∧
    (middlewareFn filterOffOptions ⟨[], none⟩ ⟨"GET", "/a"⟩ =
        MwEvent.handlerCalled false ::
          (match (⟨[], none⟩ : HandlerBehavior).panicVal with
            | some v => [MwEvent.panicOut v]
            | none => []) ∧
      ∀ e ∈ middlewareFn filterOffOptions ⟨[], none⟩ ⟨"GET", "/a"⟩, e.isTracing = false) :=
  ⟨rfl, middleware_filtered_passthrough filterOffOptions ⟨[], none⟩ ⟨"GET", "/a"⟩ rfl⟩

/-! ## The redirect-chain invariant (claim C9) -/

/-- Searching an extended span list: the old result wins; a miss falls
through to the appended record. -/
theorem findSpan_append (rs : List SpanRec) (r' : SpanRec) (s : Nat) :
    findSpan (rs ++ [r']) s =
      match findSpan rs s with
      | some r => some r
      | none => if r'.id == s then some r' else none := by
  induction rs with
  | nil => rfl
  | cons r rs ih =>
    by_cases h : (r.id == s) = true
    · simp [findSpan, h]
    · simp only [List.cons_append, findSpan, h]
      simpa [h] using ih

/-- A span id that no record carries is not found. -/
theorem findSpan_eq_none (rs : List SpanRec) (n : Nat)
    (h : ∀ r ∈ rs, r.id ≠ n) : findSpan rs n = none := by
  induction rs with
  | nil => rfl
  | cons r rs ih =>
    have h1 : (r.id == n) = false := by
      simpa using h r (List.mem_cons_self _ _)
    simp [findSpan, h1, ih fun x hx => h x (List.mem_cons_of_mem _ hx)]

/-- Updating one span rewrites the search result pointwise. -/
theorem findSpan_updateSpan (f : SpanRec → SpanRec) (hf : ∀ r, (f r).id = r.id)
    (rs : List SpanRec) (i s : Nat) :
    findSpan (updateSpan i f rs) s =
      Option.map (fun r => if (r.id == i) = true then f r else r) (findSpan rs s) := by
  induction rs with
  | nil => rfl
  | cons r rs ih =>
    simp only [updateSpan, findSpan]
    have hid : (if (r.id == i) = true then f r else r).id = r.id := by
      split <;> simp [hf]
    rw [hid]
    by_cases hrs : (r.id == s) = true
    · rw [if_pos hrs, if_pos hrs]
      rfl
    · rw [if_neg hrs, if_neg hrs]
      exact ih

/-- An update preserving ids and parents preserves the recorded parent of
every span. -/
theorem parentOf_update (nid : Nat) (rs : List SpanRec) (j : List JEvent)
    (i : Nat) (f : SpanRec → SpanRec) (hid : ∀ r, (f r).id = r.id)
    (hpar : ∀ r, (f r).parent = r.parent) (s : Nat) :
    Backend.parentOf ⟨nid, updateSpan i f rs, j⟩ s = Backend.parentOf ⟨nid, rs, j⟩ s := by
  simp only [Backend.parentOf, findSpan_updateSpan f hid]
  cases findSpan rs s with
  | none => rfl
  | some r =>
    simp only [Option.map]
    split <;> simp [hpar]

/-- `SetTag` does not change any span's recorded parent. -/
theorem parentOf_setTag (b : Backend) (i : Nat) (k : String) (v : TagVal) (s : Nat) :
    (b.setTag i k v).parentOf s = b.parentOf s :=
  parentOf_update b.nextId b.spans (b.journal ++ [JEvent.setTag i k v]) i
    (fun r => { r with tags := r.tags ++ [(k, v)] }) (fun _ => rfl) (fun _ => rfl) s

/-- Starting a new span does not change the recorded parent of a span that
was already found. -/
theorem parentOf_startSpan_old (b : Backend) (name : String) (par : Option Nat)
    (s p : Nat) (h : b.parentOf s = some p) :
    (b.startSpan name par).1.parentOf s = some p := by
  simp only [Backend.parentOf, Backend.startSpan] at h ⊢
  rw [findSpan_append]
  cases hf : findSpan b.spans s with
  | none => rw [hf] at h; simp at h
  | some r => rw [hf] at h; simpa using h

/-- In a well-formed backend the freshly started span records exactly the
`ChildOf` parent it was given. -/
theorem parentOf_startSpan_new (b : Backend) (name : String) (par : Option Nat)
    (hwf : b.WF) : (b.startSpan name par).1.parentOf b.nextId = par := by
  simp only [Backend.parentOf, Backend.startSpan]
  rw [findSpan_append, findSpan_eq_none _ _ fun r hr => Nat.ne_of_lt (hwf r hr)]
  simp

/-- Membership in an updated span list comes from membership in the
original one. -/
theorem mem_updateSpan (i : Nat) (f : SpanRec → SpanRec) (rs : List SpanRec)
    (r : SpanRec) (h : r ∈ updateSpan i f rs) :
    ∃ r0 ∈ rs, r = if (r0.id == i) = true then f r0 else r0 := by
  induction rs with
  | nil => simp [updateSpan] at h
  | cons r0 rs ih =>
    simp only [updateSpan, List.mem_cons] at h
    rcases h with h | h
    · exact ⟨r0, List.mem_cons_self _ _, h⟩
    · obtain ⟨r1, hr1, he⟩ := ih h
      exact ⟨r1, List.mem_cons_of_mem _ hr1, he⟩

/-- Starting a span preserves well-formedness. -/
theorem WF_startSpan (b : Backend) (name : String) (par : Option Nat)
    (hwf : b.WF) : (b.startSpan name par).1.WF := by
  intro r hr
  simp only [Backend.startSpan, List.mem_append, List.mem_singleton] at hr
  simp only [Backend.startSpan]
  rcases hr with hr | rfl
  · exact Nat.lt_succ_of_lt (hwf r hr)
  · exact Nat.lt_succ_self _

/-- An id-preserving update preserves well-formedness. -/
theorem WF_update (nid : Nat) (rs : List SpanRec) (j : List JEvent) (i : Nat)
    (f : SpanRec → SpanRec) (hid : ∀ r, (f r).id = r.id)
    (hwf : Backend.WF ⟨nid, rs, j⟩) (j' : List JEvent) :
    Backend.WF ⟨nid, updateSpan i f rs, j'⟩ := by
  intro r hr
  obtain ⟨r0, hr0, he⟩ := mem_updateSpan i f rs r hr
  have : r.id = r0.id := by rw [he]; split <;> simp [hid]
  rw [this]
  exact hwf r0 hr0

/-- `SetTag` preserves well-formedness. -/
theorem WF_setTag (b : Backend) (i : Nat) (k : String) (v : TagVal)
    (hwf : b.WF) : (b.setTag i k v).WF :=
  WF_update b.nextId b.spans b.journal i
    (fun r => { r with tags := r.tags ++ [(k, v)] }) (fun _ => rfl) hwf
    (b.journal ++ [JEvent.setTag i k v])

/-- The parent chain survives any backend growth that preserves recorded
parents. -/
theorem ChainToRoot.mono {b b' : Backend} {root c : Nat}
    (hpres : ∀ s p, b.parentOf s = some p → b'.parentOf s = some p)
    (h : ChainToRoot b root c) : ChainToRoot b' root c := by
  induction h with
  | refl => exact ChainToRoot.refl
  | step hp _ ih => exact ChainToRoot.step (hpres _ _ hp) ih

/-- One `(*Tracer).start` call: succeeds, keeps the backend well-formed,
roots the fresh span at the previous current span, and preserves all
recorded parents. -/
theorem start_step (b : Backend) (t : Tracer) (m : String) (c : Nat)
    (hpar : t.parent = some c) (hwf : b.WF) :
    t.start b m =
      Except.ok
        ((((b.startSpan ("HTTP " ++ m) (some c)).1.setTag b.nextId "span.kind"
              (TagVal.str "client")).setTag b.nextId "component" (TagVal.str "net/http")),
          { t with sp := some b.nextId, parent := some b.nextId }, b.nextId) ∧
    ((((b.startSpan ("HTTP " ++ m) (some c)).1.setTag b.nextId "span.kind"
          (TagVal.str "client")).setTag b.nextId "component" (TagVal.str "net/http"))).WF ∧
    ((((b.startSpan ("HTTP " ++ m) (some c)).1.setTag b.nextId "span.kind"
          (TagVal.str "client")).setTag b.nextId "component"
            (TagVal.str "net/http"))).parentOf b.nextId = some c ∧
    ∀ s p, b.parentOf s = some p →
      ((((b.startSpan ("HTTP " ++ m) (some c)).1.setTag b.nextId "span.kind"
            (TagVal.str "client")).setTag b.nextId "component"
              (TagVal.str "net/http"))).parentOf s = some p := by
  refine ⟨by simp [Tracer.start, hpar, Backend.startSpan], ?_, ?_, ?_⟩
  · exact WF_setTag _ _ _ _ (WF_setTag _ _ _ _ (WF_startSpan _ _ _ hwf))
  · rw [parentOf_setTag, parentOf_setTag]
    exact parentOf_startSpan_new b _ _ hwf
  · intro s p hp
    rw [parentOf_setTag, parentOf_setTag]
    exact parentOf_startSpan_old b _ _ s p hp

/-- Invariant of the redirect loop: from a well-formed backend and a
tracer whose current span chains to the root, every sequence of `start`
calls succeeds and re-establishes the invariant. -/
theorem startMany_chain (ms : List String) (b : Backend) (t : Tracer)
    (root c : Nat) (hwf : b.WF) (hroot : t.root = some root)
    (hpar : t.parent = some c) (hchain : ChainToRoot b root c) :
    ∃ b' t' c', startMany b t ms = Except.ok (b', t') ∧ b'.WF ∧
      t'.root = some root ∧ t'.parent = some c' ∧ ChainToRoot b' root c' := by
  induction ms generalizing b t c with
  | nil => exact ⟨b, t, c, rfl, hwf, hroot, hpar, hchain⟩
  | cons m ms ih =>
    obtain ⟨hstart, hwf1, hnew, hpres⟩ := start_step b t m c hpar hwf
    obtain ⟨b', t', c', hrun, hwf', hroot', hpar', hchain'⟩ :=
      ih _ { t with sp := some b.nextId, parent := some b.nextId } b.nextId hwf1
        (by simpa using hroot) rfl
        (ChainToRoot.step hnew (hchain.mono hpres))
    exact ⟨b', t', c', by simp [startMany, hstart, hrun], hwf', hroot', hpar', hchain'⟩

/-- Claim C9: for a client tracer created by `newTrace` and any sequence
of `start` calls (one per redirect hop), the current span — the `parent`
field after each start — is always either the root span or a span whose
recorded `ChildOf` parent chain terminates at the root span. -/
theorem tracer_current_chain_terminates_at_root (b : Backend) (p : Nat)
    (ms : List String) (hwf : b.wfB = true) :
    ∃ b0 t0, newTrace b (some p) = Except.ok (b0, t0) ∧ t0.root = some b.nextId ∧
      t0.parent = some b.nextId ∧
      ∃ b' t' c, startMany b0 t0 ms = Except.ok (b', t') ∧
        t'.root = some b.nextId ∧ t'.parent = some c ∧ ChainToRoot b' b.nextId c := by
  have hWF : b.WF := by
    intro r hr
    have h := (List.all_eq_true.mp hwf) r hr
    simpa using h
  refine ⟨(b.startSpan "HTTP" (some p)).1.setTag b.nextId "span.kind" (TagVal.str "client"),
    ⟨some b.nextId, some b.nextId, none⟩, rfl, rfl, rfl, ?_⟩
  obtain ⟨b', t', c, hrun, _, hroot', hpar', hchain'⟩ := startMany_chain ms
    ((b.startSpan "HTTP" (some p)).1.setTag b.nextId "span.kind" (TagVal.str "client"))
    ⟨some b.nextId, some b.nextId, none⟩ b.nextId b.nextId
    (WF_setTag _ _ _ _ (WF_startSpan _ _ _ hWF)) rfl rfl ChainToRoot.refl
  exact ⟨b', t', c, hrun, hroot', hpar', hchain'⟩

/-- Witness for claim C9 at a concrete input: a fresh backend, parent span
id 5, two redirect hops. -/
theorem tracer_current_chain_witness :
    (Backend.wfB ⟨0, [], []⟩ = true) ∧
    (∃ b0 t0, newTrace ⟨0, [], []⟩ (some 5) = Except.ok (b0, t0) ∧
      t0.root = some (Backend.nextId ⟨0, [], []⟩) ∧
      t0.parent = some (Backend.nextId ⟨0, [], []⟩) ∧
      ∃ b' t' c, startMany b0 t0 ["GET", "GET"] = Except.ok (b', t') ∧
        t'.root = some (Backend.nextId ⟨0, [], []⟩) ∧
        t'.parent = some c ∧ ChainToRoot b' (Backend.nextId ⟨0, [], []⟩) c) :=
  ⟨rfl, tracer_current_chain_terminates_at_root ⟨0, [], []⟩ 5 ["GET", "GET"] rfl⟩

end GoStdlib
